import Mathlib

/-!
Shallow embedding of `simpleauth/handler.py` (class `SimpleAuthHandler`):
the provider registry, the OAuth2/OAuth1/OpenID init and callback state
machines, the dispatcher, the CSRF state-token codec and the two token
response decoders.  Python 2 byte strings are modelled as `String`
(one `Char` per byte) or `List Nat` (byte values); Python `None`-or-string
values as `Option String`; collaborator calls (urlfetch, the OAuth1 signing
client, the per-provider profile fetchers, the users service, the session
store) as explicit oracle inputs; raised exceptions as `Except.error` with
the exception text.  Observable side effects (redirects, host callbacks,
outbound network requests) are collected in an event trace.
-/

set_option maxRecDepth 4000

namespace SimpleAuth

/-- Python truthiness of a `None`-or-`str` value: `None` and the empty string are falsy. -/
def truthy : Option String → Bool
  | none => false
  | some s => s != ""

/-- Python `str()` of a `None`-or-`str` value, as used by `urlencode`. -/
def pyStr : Option String → String
  | none => "None"
  | some s => s

/-- Whether `pre` is a prefix of `l` (on characters). -/
def startsWithL (pre l : List Char) : Bool :=
  match pre, l with
  | [], _ => true
  | _ :: _, [] => false
  | p :: ps, c :: cs => p = c && startsWithL ps cs

/-- Substring test on characters; used only in theorem statements. -/
def containsL (needle : List Char) : List Char → Bool
  | [] => needle.isEmpty
  | c :: rest => startsWithL needle (c :: rest) || containsL needle rest

/-- Substring test, used only in theorem statements. -/
def strContains (hay needle : String) : Bool :=
  containsL needle.data hay.data

/-! ## base64 (urlsafe alphabet), as used by `base64.urlsafe_b64encode/def64decode` -/

/-- The urlsafe base64 alphabet (`-` and `_` in place of `+` and `/`). -/
def b64Alphabet : List Char :=
  "ABCDEFGHIJKLMNOPQRSTUVWXYZabcdefghijklmnopqrstuvwxyz0123456789-_".data

/-- Sextet value to alphabet character. -/
def b64Char (n : Nat) : Char := b64Alphabet.getD n 'A'

/-- Alphabet character back to its sextet value. -/
def b64Index (c : Char) : Option Nat :=
  b64Alphabet.indexOf? c

/-- `base64.urlsafe_b64encode`: bytes to base64 characters, `=`-padded. -/
def b64EncodeBytes : List Nat → List Char
  | [] => []
  | [a] => [b64Char (a / 4), b64Char (a % 4 * 16), '=', '=']
  | [a, b] => [b64Char (a / 4), b64Char (a % 4 * 16 + b / 16), b64Char (b % 16 * 4), '=']
  | a :: b :: c :: rest =>
      b64Char (a / 4) :: b64Char (a % 4 * 16 + b / 16) ::
      b64Char (b % 16 * 4 + c / 64) :: b64Char (c % 64) :: b64EncodeBytes rest

/-- `base64.urlsafe_b64decode`: base64 characters back to bytes; `none` models
the `TypeError` raised on malformed input. -/
def b64DecodeBytes : List Char → Option (List Nat)
  | [] => some []
  | c1 :: c2 :: c3 :: c4 :: rest =>
    match b64Index c1, b64Index c2 with
    | some i1, some i2 =>
      if c3 = '=' ∧ c4 = '=' ∧ rest = [] then
        some [i1 * 4 + i2 / 16]
      else
        match b64Index c3 with
        | some i3 =>
          if c4 = '=' ∧ rest = [] then
            some [i1 * 4 + i2 / 16, i2 % 16 * 16 + i3 / 4]
          else
            match b64Index c4 with
            | some i4 =>
              (b64DecodeBytes rest).map
                (fun bs => (i1 * 4 + i2 / 16) :: (i2 % 16 * 16 + i3 / 4) :: (i3 % 4 * 64 + i4) :: bs)
            | none => none
        | none => none
    | _, _ => none
  | _ => none

/-! ## decimal digits: `str(n)` for a nonnegative integer, and `long(s)` -/

/-- Byte string of the decimal representation of `n` (ASCII digits), i.e.
Python `str` of a nonnegative integer. -/
def decDigits (n : Nat) : List Nat :=
  if h : n < 10 then [48 + n]
  else decDigits (n / 10) ++ [48 + n % 10]
decreasing_by exact Nat.div_lt_self (by omega) (by omega)

/-- Value of one ASCII digit byte. -/
def digitVal (b : Nat) : Option Nat :=
  if 48 ≤ b ∧ b ≤ 57 then some (b - 48) else none

/-- Accumulating decimal parse of a byte string. -/
def parseDigitsAux (acc : Nat) : List Nat → Option Nat
  | [] => some acc
  | b :: rest =>
    match digitVal b with
    | some v => parseDigitsAux (acc * 10 + v) rest
    | none => none

/-- Parse a nonempty all-digit byte string. -/
def parseDigits (bs : List Nat) : Option Nat :=
  if bs.isEmpty then none else parseDigitsAux 0 bs

/-- Python `long()` applied to a byte string: optional `-` sign followed by
decimal digits (the whitespace/`+` forms are never reached by the handler);
`none` models the `ValueError` raised otherwise. -/
def parseLong (bs : List Nat) : Option Int :=
  match bs with
  | b :: rest =>
    if b = 45 then (parseDigits rest).map (fun n => -(n : Int))
    else (parseDigits (b :: rest)).map (fun n => (n : Int))
  | [] => none

/-! ## `str.rsplit(delim, 1)` on byte strings -/

/-- Split at the last occurrence of `d`: `some (before, after)`, or `none`
when `d` does not occur. -/
def rsplitLast (d : Nat) : List Nat → Option (List Nat × List Nat)
  | [] => none
  | b :: rest =>
    match rsplitLast d rest with
    | some (pre, post) => some (b :: pre, post)
    | none => if b = d then some ([], rest) else none

/-- Python `bs.rsplit(chr d, 1)`: a one- or two-element list. -/
def rsplit1 (d : Nat) (bs : List Nat) : List (List Nat) :=
  match rsplitLast d bs with
  | some (pre, post) => [pre, post]
  | none => [bs]

/-! ## CSRF token codec (`_generate_csrf_token` / `_validate_csrf_token`) -/

/-- `OAUTH2_CSRF_TOKEN_TIMEOUT = 3600`. -/
def OAUTH2_CSRF_TOKEN_TIMEOUT : Nat := 3600

/-- `OAUTH2_CSRF_DELIMITER = ':'` (byte value). -/
def OAUTH2_CSRF_DELIMITER : Nat := 58

/-- The `OAUTH2_CSRF_SESSION_PARAM` class attribute, `oauth2_state`. -/
def OAUTH2_CSRF_SESSION_PARAM : String := "oauth2_state"

/-- `_generate_csrf_token(_time=None)`.  `secret` is the byte string drawn by
the `security.generate_random_string(30, pool=security.ASCII_PRINTABLE)`
collaborator; `timeArg` is the `_time` argument and `sysTime` the value of
`long(time.time())` (`_time or long(time.time())`: a `None` or `0` argument
falls back to the clock).  Returns
`base64.urlsafe_b64encode(secret + ':' + str(now))`. -/
def generate_csrf_token (secret : List Nat) (timeArg : Option Nat) (sysTime : Nat) : String :=
  let now : Nat :=
    match timeArg with
    | some v => if v = 0 then sysTime else v
    | none => sysTime
  String.mk (b64EncodeBytes (secret ++ OAUTH2_CSRF_DELIMITER :: decDigits now))

/-- `_validate_csrf_token(expected, actual)` evaluated when
`long(time.time())` is `now`.  Mirrors the source order: the raw string
equality check first, then decode / rsplit / `long()` (all failures caught,
returning `False`), the empty-secret check, and finally the timeout check. -/
def validate_csrf_token (now : Nat) (expected actual : String) : Bool :=
  if expected ≠ actual then false
  else
    match b64DecodeBytes expected.data with
    | none => false
    | some decoded =>
      match rsplit1 OAUTH2_CSRF_DELIMITER decoded with
      | [token_key, token_time_str] =>
        match parseLong token_time_str with
        | none => false
        | some token_time =>
          if token_key = [] then false
          else !(decide ((now : Int) - token_time > (OAUTH2_CSRF_TOKEN_TIMEOUT : Int)))
      | _ => false

/-! ## CPython 2.7 dict iteration order

The handler builds its query-string parameters as `dict` literals and passes
them to `urllib.urlencode`, which iterates the dict in the CPython hash-table
order.  With hash randomization off (the CPython 2.7 default) this order is
deterministic: the 64-bit string hash selects a slot in the 8-slot table
(fewer than 6 entries are ever inserted, so no resize happens), open
addressing resolves collisions, and iteration walks the slots in index
order. -/

/-- The modulus of the C-level 64-bit arithmetic used by the CPython hash. -/
def U64 : Nat := 18446744073709551616

/-- CPython 2.7 64-bit string hash (viewed as a value mod `2^64`):
`x = ord(s[0]) << 7; for c in s: x = (1000003*x) ^ ord(c); x ^= len(s)`,
with the final `-1 ↦ -2` adjustment. -/
def pyStrHash (s : String) : Nat :=
  match s.data with
  | [] => 0
  | c :: _ =>
    let x0 := (c.toNat <<< 7) % U64
    let x := s.data.foldl (fun x b => ((1000003 * x) % U64) ^^^ b.toNat) x0
    let x := x ^^^ s.length
    if x = U64 - 1 then U64 - 2 else x

/-- Open-addressing probe: `i = i*5 + perturb + 1; perturb >>= 5`, table
size 8.  `fuel` bounds the loop; 64 probes always suffice for the at most
five insertions the handler performs into an 8-slot table. -/
def probeLoop (k : String) : Nat → Nat → Nat → List (Option String) → List (Option String)
  | _, _, 0, table => table
  | i, perturb, fuel + 1, table =>
    let i' := (i * 5 + perturb + 1) % U64
    let idx := i' % 8
    if (table.getD idx none).isNone then table.set idx (some k)
    else probeLoop k i' (perturb / 32) fuel table

/-- Insert a (new) key into the 8-slot hash table. -/
def dictInsert (table : List (Option String)) (k : String) : List (Option String) :=
  let h := pyStrHash k
  let i := h % 8
  if (table.getD i none).isNone then table.set i (some k)
  else probeLoop k i h 64 table

/-- Iteration order of a CPython 2.7 dict holding the given (distinct) keys,
inserted in the given order. -/
def pyDictOrder (keys : List String) : List String :=
  (keys.foldl dictInsert [none, none, none, none, none, none, none, none]).reduceOption

/-! ## `urllib.urlencode` and `urllib.quote_plus` -/

/-- `urllib.always_safe` membership: ASCII letters, digits, `_`, `.`, `-`. -/
def alwaysSafe (c : Char) : Bool :=
  c.isAlpha || c.isDigit || c = '_' || c = '.' || c = '-'

/-- One uppercase hex digit. -/
def hexDigitUpper (n : Nat) : Char :=
  if n < 10 then Char.ofNat (48 + n) else Char.ofNat (55 + n)

/-- `urllib.quote_plus`: space to `+`, safe bytes kept, the rest `%XX`. -/
def quote_plus (s : String) : String :=
  String.mk (s.data.foldr
    (fun c acc =>
      if c = ' ' then '+' :: acc
      else if alwaysSafe c then c :: acc
      else '%' :: hexDigitUpper (c.toNat / 16) :: hexDigitUpper (c.toNat % 16) :: acc)
    [])

/-- `urllib.urlencode` applied to a dict literal given as its insertion-order
key/value list: iterates the dict in CPython hash order and renders
`quote_plus(str(k)) + '=' + quote_plus(str(v))` joined by `&`. -/
def urlencode (params : List (String × Option String)) : String :=
  let ordered := pyDictOrder (params.map (·.1))
  String.intercalate "&"
    (ordered.map (fun k =>
      quote_plus k ++ "=" ++ quote_plus (pyStr ((params.lookup k).getD none))))

/-- Replace each occurrence of `needle` (nonempty) by `arg`; `fuel` bounds
the recursion and is instantiated with the input length. -/
def replaceAllAux (needle arg : List Char) : Nat → List Char → List Char
  | 0, s => s
  | _ + 1, [] => []
  | fuel + 1, c :: rest =>
    if startsWithL needle (c :: rest) then
      arg ++ replaceAllAux needle arg fuel (List.drop (needle.length - 1) rest)
    else c :: replaceAllAux needle arg fuel rest

/-- Python `str.format` with a single `{0}` placeholder, as used on the
authorize-URL templates. -/
def pyFormat0 (tmpl arg : String) : String :=
  String.mk (replaceAllAux "{0}".data arg.data tmpl.data.length tmpl.data)

/-! ## Response decoders -/

/-- Hex digit test (`string.hexdigits`). -/
def isHexDigitChar (c : Char) : Bool :=
  c.isDigit || ('a' ≤ c && c ≤ 'f') || ('A' ≤ c && c ≤ 'F')

/-- Hex digit value. -/
def hexVal (c : Char) : Nat :=
  if c.isDigit then c.toNat - 48
  else if 'a' ≤ c ∧ c ≤ 'f' then c.toNat - 87
  else c.toNat - 55

/-- `urllib.unquote_plus`: `+` to space, then `%XX` decoding. -/
def unquote_plus (s : String) : String :=
  let rec go : List Char → List Char
    | [] => []
    | '%' :: h1 :: h2 :: rest =>
      if isHexDigitChar h1 && isHexDigitChar h2 then
        Char.ofNat (16 * hexVal h1 + hexVal h2) :: go rest
      else '%' :: go (h1 :: h2 :: rest)
    | '+' :: rest => ' ' :: go rest
    | c :: rest => c :: go rest
  String.mk (go s.data)

/-- Split a character list on a separator character (like `str.split(sep)`:
adjacent separators give empty segments). -/
def splitOnChar (d : Char) : List Char → List (List Char)
  | [] => [[]]
  | c :: rest =>
    if c = d then [] :: splitOnChar d rest
    else
      match splitOnChar d rest with
      | seg :: segs => (c :: seg) :: segs
      | [] => [[c]]

/-- Split at the first `=` (like `s.split(chr 61, 1)`): `none` when absent. -/
def splitFirstEq : List Char → Option (List Char × List Char)
  | [] => none
  | c :: rest =>
    if c = '=' then some ([], rest)
    else (splitFirstEq rest).map (fun pr => (c :: pr.1, pr.2))

/-- `urlparse.parse_qsl(body)` with the default `keep_blank_values=False`:
split on `&` and `;`, skip empty fields, keep only fields with a `=` and a
nonempty value, `unquote_plus` names and values. -/
def parse_qsl (qs : String) : List (String × String) :=
  ((splitOnChar '&' qs.data).flatMap (splitOnChar ';')).filterMap (fun nv =>
    if nv.isEmpty then none
    else
      match splitFirstEq nv with
      | none => none
      | some (name, v) =>
        if v.isEmpty then none
        else some (unquote_plus (String.mk name), unquote_plus (String.mk v)))

/-- `dict(pairs)`: an association list keyed in first-occurrence order with
the last value winning (the hash iteration order of the resulting dict is
irrelevant here because the result is only used as a mapping). -/
def dictOfPairs (ps : List (String × String)) : List (String × String) :=
  ps.foldl
    (fun acc p =>
      if (acc.lookup p.1).isSome then acc.map (fun q => if q.1 = p.1 then p else q)
      else acc ++ [p])
    []

/-- `_query_string_parser(body)`: `dict(urlparse.parse_qsl(body))`. -/
def query_string_decoder (body : String) : List (String × String) :=
  dictOfPairs (parse_qsl body)

/-- Whitespace skipped by the JSON decoder. -/
def jsonSkipWs (cs : List Char) : List Char :=
  cs.dropWhile (fun c => c = ' ' ∨ c = '\t' ∨ c = '\n' ∨ c = '\r')

/-- Parse one JSON string literal body after the opening quote; handles the
`\"`, `\\` and `\/` escapes (the only ones appearing in token responses). -/
def jsonString (acc : List Char) : List Char → Option (String × List Char)
  | [] => none
  | '"' :: rest => some (String.mk acc.reverse, rest)
  | '\\' :: '"' :: rest => jsonString ('"' :: acc) rest
  | '\\' :: '\\' :: rest => jsonString ('\\' :: acc) rest
  | '\\' :: '/' :: rest => jsonString ('/' :: acc) rest
  | '\\' :: _ => none
  | c :: rest => jsonString (c :: acc) rest

/-- Parse the members of a JSON object of string values (after `{`). -/
def jsonMembers (fuel : Nat) (cs : List Char) :
    Option (List (String × String) × List Char) :=
  match fuel with
  | 0 => none
  | fuel + 1 =>
    match jsonSkipWs cs with
    | '"' :: rest =>
      match jsonString [] rest with
      | none => none
      | some (k, rest) =>
        match jsonSkipWs rest with
        | ':' :: rest =>
          match jsonSkipWs rest with
          | '"' :: rest =>
            match jsonString [] rest with
            | none => none
            | some (v, rest) =>
              match jsonSkipWs rest with
              | ',' :: rest =>
                (jsonMembers fuel rest).map (fun (ms, r) => ((k, v) :: ms, r))
              | '}' :: rest => some ([(k, v)], rest)
              | _ => none
          | _ => none
        | _ => none
    | _ => none

/-- `_json_parser(body)`: `json.loads(body)`, modelled for the flat
string-valued objects a token endpoint returns; `none` models the
`ValueError` raised on anything else. -/
def json_decoder (body : String) : Option (List (String × String)) :=
  match jsonSkipWs body.data with
  | '{' :: rest =>
    match jsonSkipWs rest with
    | '}' :: rest => if jsonSkipWs rest = [] then some [] else none
    | _ =>
      match jsonMembers (rest.length + 1) rest with
      | some (ms, rest) => if jsonSkipWs rest = [] then some (dictOfPairs ms) else none
      | none => none
  | _ => none

/-! ## Provider registry and parser registry -/

/-- One `PROVIDERS` entry: the auth family with its endpoint descriptor(s).
The oauth1 URL dict is carried as its two optional entries (`dict.get` is
used on it, so absence must be representable). -/
inductive ProviderCfg
  | oauth2 (authUrlTemplate tokenUrl : String)
  | oauth1 (requestTokenUrl authUrlTemplate : Option String) (accessTokenUrl : String)
  | openid
deriving DecidableEq

/-- The `PROVIDERS` class attribute. -/
def PROVIDERS : List (String × ProviderCfg) :=
  [ ("google", .oauth2 "https://accounts.google.com/o/oauth2/auth?{0}"
      "https://accounts.google.com/o/oauth2/token"),
    ("windows_live", .oauth2 "https://oauth.live.com/authorize?{0}"
      "https://oauth.live.com/token"),
    ("facebook", .oauth2 "https://www.facebook.com/dialog/oauth?{0}"
      "https://graph.facebook.com/oauth/access_token"),
    ("linkedin", .oauth1 (some "https://api.linkedin.com/uas/oauth/requestToken")
      (some "https://www.linkedin.com/uas/oauth/authenticate?{0}")
      "https://api.linkedin.com/uas/oauth/accessToken"),
    ("twitter", .oauth1 (some "https://api.twitter.com/oauth/request_token")
      (some "https://api.twitter.com/oauth/authenticate?{0}")
      "https://api.twitter.com/oauth/access_token"),
    ("openid", .openid) ]

/-- Which decoder a `TOKEN_RESPONSE_PARSERS` entry names. -/
inductive ParserKind
  | json
  | queryString
deriving DecidableEq

/-- The `TOKEN_RESPONSE_PARSERS` class attribute (the `_json_parser` or
`_query_string_parser` method name, by provider). -/
def TOKEN_RESPONSE_PARSERS : List (String × ParserKind) :=
  [ ("google", .json), ("windows_live", .json), ("facebook", .queryString),
    ("linkedin", .queryString), ("twitter", .queryString) ]

/-- Run a registered decoder on a response body; `json.loads` raises
`ValueError` on malformed input, `_query_string_parser` is total. -/
def runParser (pk : ParserKind) (body : String) : Except String (List (String × String)) :=
  match pk with
  | .json =>
    match json_decoder body with
    | some d => .ok d
    | none => .error "No JSON object could be decoded"
  | .queryString => .ok (query_string_decoder body)

/-! ## Handler state, events, collaborator oracles -/

/-- The session store, restricted to the two keys the handler uses
(`req_token`, stored OAuth1 request token dict, and `oauth2_state`,
stored CSRF token). -/
structure Session where
  req_token : Option (List (String × String)) := none
  oauth2_state : Option String := none
deriving DecidableEq

/-- Observable side effects: the flow redirect, the three terminal host
callbacks and the outbound network requests. -/
inductive Event
  | redirect (url : String)
  | provider_not_supported (provider : Option String)
  | auth_error (provider : Option String) (msg : String)
  | signin (user_data auth_info : List (String × String)) (provider : Option String)
  | urlfetchPost (url : String) (payload : String)
  | oauth1Request (url : String) (method : String)
deriving DecidableEq

/-- The OpenID `users.get_current_user()` record. -/
structure OpenidUser where
  federated_identity : Option String
  nickname : String
  email : String
  federated_provider : String

/-- Host-supplied configuration: `_get_consumer_info_for` (key, secret,
scope — defaults `(None, None, None)`), `_callback_uri_for` (defaults
`None`) and the `OAUTH2_CSRF_STATE` switch. -/
structure HandlerCfg where
  consumer_info_for : String → Option String × Option String × Option String
  callback_uri_for : String → Option String
  OAUTH2_CSRF_STATE : Bool

/-- Collaborator oracles (spec §6): the urlfetch transport for the OAuth2
token exchange, the OAuth1 signing client transport (status, body), the
per-provider profile fetcher `(auth_info, key, secret) -> UserData` with the
events it emits, the federated-login URL builder and current user. -/
structure Env where
  urlfetch_response : String → String → String
  oauth1_response : String → String → Nat × String
  user_info : String → List (String × String) → Option String → Option String →
    Except String (List (String × String)) × List Event
  create_login_url : String → String → String
  current_user : Option OpenidUser

/-- A flow invocation: the returned value or raised exception, the events it
emitted, and the session it leaves behind. -/
abbrev FlowOut (α : Type) := Except String α × List Event × Session

/-- `(user_data, auth_info)`. -/
abbrev CallbackValue := List (String × String) × List (String × String)

/-! ## OAuth2 flow -/

/-- `_oauth2_init(provider, auth_url)`.  `csrf_secret` is the random-string
collaborator output and `now` the clock, used only when
`OAUTH2_CSRF_STATE` is set. -/
def oauth2_init (h : HandlerCfg) (provider : String) (auth_url : String)
    (csrf_secret : List Nat) (now : Nat) (s : Session) : List Event × Session :=
  let (key, secret, scope) := h.consumer_info_for provider
  let callback_url := h.callback_uri_for provider
  let valid := truthy key && truthy secret && (auth_url != "") && truthy callback_url
  if !valid then ([.provider_not_supported (some provider)], s)
  else
    let params0 := [("response_type", some "code"), ("client_id", key),
                    ("redirect_uri", callback_url)]
    let params1 := if truthy scope then params0 ++ [("scope", scope)] else params0
    let (params2, s') :=
      if h.OAUTH2_CSRF_STATE then
        let state := generate_csrf_token csrf_secret none now
        (params1 ++ [("state", some state)], { s with oauth2_state := some state })
      else (params1, s)
    let target := pyFormat0 auth_url (urlencode params2)
    ([.redirect target], s')

/-- The token-exchange payload dict of `_oauth2_callback`, in source
(insertion) order. -/
def oauth2_token_payload (code client_id client_secret callback_url : Option String) :
    List (String × Option String) :=
  [("code", code), ("client_id", client_id), ("client_secret", client_secret),
   ("redirect_uri", callback_url), ("grant_type", some "authorization_code")]

/-- `_oauth2_callback(provider, access_token_url)`.  `q` is
`self.request.get` (query parameter to value), `now` the clock used by the
CSRF validation. -/
def oauth2_callback (h : HandlerCfg) (env : Env) (provider : String)
    (access_token_url : String) (q : String → Option String) (now : Nat)
    (s : Session) : FlowOut CallbackValue :=
  let code := q "code"
  let error := q "error"
  let callback_url := h.callback_uri_for provider
  let (client_id, client_secret, _scope) := h.consumer_info_for provider
  if truthy error then (.error (pyStr error), [], s)
  else
    let (csrf_ok, expectedS, actualS, s') :=
      if h.OAUTH2_CSRF_STATE then
        let expected := s.oauth2_state.getD ""
        let s' := { s with oauth2_state := none }
        let actual := (q "state").getD ""
        (validate_csrf_token now expected actual, expected, actual, s')
      else (true, "", "", s)
    if !csrf_ok then
      (.error ("State parameter is not valid. Expected [" ++ expectedS ++
        "], got [" ++ actualS ++ "]"), [], s')
    else
      let body := urlencode (oauth2_token_payload code client_id client_secret callback_url)
      let respContent := env.urlfetch_response access_token_url body
      let ev := Event.urlfetchPost access_token_url body
      match TOKEN_RESPONSE_PARSERS.lookup provider with
      | none => (.error ("\x27" ++ provider ++ "\x27"), [ev], s')
      | some pk =>
        match runParser pk respContent with
        | .error m => (.error m, [ev], s')
        | .ok auth_info =>
          match env.user_info provider auth_info client_id client_secret with
          | (.error m, fevs) => (.error m, ev :: fevs, s')
          | (.ok user_data, fevs) => (.ok (user_data, auth_info), ev :: fevs, s')

/-! ## OAuth1 flow -/

/-- Python `repr` of the request-token dict, as interpolated into the
message about an unusable token response (iteration order abstracted to
first-occurrence order; no theorem inspects this text). -/
def pyReprDict (d : List (String × String)) : String :=
  "\x7b" ++ String.intercalate ", " (d.map (fun p => "\x27" ++ p.1 ++ "\x27: \x27" ++ p.2 ++ "\x27")) ++ "\x7d"

/-- `_oauth1_init(provider, auth_urls)`.  `request_url`/`auth_url` are
`auth_urls.get('request'/'auth', None)`.  Both `_json_parser` and
`_query_string_parser` exist on the handler, so
`getattr(self, TOKEN_RESPONSE_PARSERS[provider], None)` is non-`None`
exactly when the `TOKEN_RESPONSE_PARSERS[provider]` lookup itself does not
raise `KeyError`; that makes the final `or`-disjunct of `_valid` true and
the "Provider not supported" raise unreachable. -/
def oauth1_init (h : HandlerCfg) (env : Env) (provider : String)
    (request_url auth_url : Option String) (s : Session) : FlowOut Unit :=
  let (key, secret, _) := h.consumer_info_for provider
  let callback_url := h.callback_uri_for provider
  let token_request_url := request_url
  match TOKEN_RESPONSE_PARSERS.lookup provider with
  | none => (.error ("\x27" ++ provider ++ "\x27"), [], s)
  | some pk =>
    let valid := truthy key || truthy secret || truthy token_request_url ||
                 truthy auth_url || truthy callback_url || true
    if !valid then (.error ("Provider " ++ provider ++ " is not supported"), [], s)
    else
      match request_url with
      | none => (.error "\x27request\x27", [], s)
      | some req_url =>
        let (status, content) := env.oauth1_response req_url "GET"
        let ev := Event.oauth1Request req_url "GET"
        if status ≠ 200 then
          (.error ("Could not fetch a valid response from " ++ provider), [ev], s)
        else
          match runParser pk content with
          | .error m => (.error m, [ev], s)
          | .ok request_token =>
            if !truthy (request_token.lookup "oauth_token") then
              (.error ("Couldn\x27t get a valid token from " ++ provider ++ "\n" ++
                pyReprDict request_token), [ev], s)
            else
              match auth_url with
              | none => (.error "\x27auth\x27", [ev], s)
              | some a_url =>
                let target := pyFormat0 a_url (urlencode
                  [("oauth_token", request_token.lookup "oauth_token"),
                   ("oauth_callback", callback_url)])
                (.ok (), [ev, .redirect target], { s with req_token := some request_token })

/-- Python truthiness of the popped request-token dict (`None` and the empty
dict are falsy). -/
def truthyDict : Option (List (String × String)) → Bool
  | none => false
  | some [] => false
  | some _ => true

/-- `_oauth1_callback(provider, access_token_url)`.  The session pop of
`req_token` is the first session access and happens unconditionally. -/
def oauth1_callback (h : HandlerCfg) (env : Env) (provider : String)
    (access_token_url : String) (q : String → Option String) (s : Session) :
    FlowOut CallbackValue :=
  let request_token := s.req_token
  let s' := { s with req_token := none }
  let verifier := q "oauth_verifier"
  let (consumer_key, consumer_secret, _) := h.consumer_info_for provider
  if !truthyDict request_token then (.error "Couldn\x27t find request token", [], s')
  else if !truthy verifier then (.error "No OAuth verifier was provided", [], s')
  else
    let rt := request_token.getD []
    match rt.lookup "oauth_token" with
    | none => (.error "\x27oauth_token\x27", [], s')
    | some _tok =>
      match rt.lookup "oauth_token_secret" with
      | none => (.error "\x27oauth_token_secret\x27", [], s')
      | some _tok_secret =>
        let (_status, content) := env.oauth1_response access_token_url "POST"
        let ev := Event.oauth1Request access_token_url "POST"
        match TOKEN_RESPONSE_PARSERS.lookup provider with
        | none => (.error ("\x27" ++ provider ++ "\x27"), [ev], s')
        | some pk =>
          match runParser pk content with
          | .error m => (.error m, [ev], s')
          | .ok auth_info =>
            match env.user_info provider auth_info consumer_key consumer_secret with
            | (.error m, fevs) => (.error m, ev :: fevs, s')
            | (.ok user_data, fevs) => (.ok (user_data, auth_info), ev :: fevs, s')

/-! ## OpenID flow -/

/-- `_openid_init(provider, identity=None)` as invoked by the dispatcher
(`identity` is `cfg[1] = None`, so the identity URL comes from the request). -/
def openid_init (h : HandlerCfg) (env : Env) (provider : String)
    (q : String → Option String) (s : Session) : List Event × Session :=
  let identity_url := q "identity_url"
  let callback_url := h.callback_uri_for provider
  if truthy identity_url && truthy callback_url then
    ([.redirect (env.create_login_url (pyStr callback_url) (pyStr identity_url))], s)
  else ([.provider_not_supported (some provider)], s)

/-- `_openid_callback(provider, _identity=None)`. -/
def openid_callback (env : Env) (s : Session) : FlowOut CallbackValue :=
  match env.current_user with
  | none => (.error "OpenID Authentication failed", [], s)
  | some u =>
    if !truthy u.federated_identity then (.error "OpenID Authentication failed", [], s)
    else
      (.ok ([("id", pyStr u.federated_identity), ("nickname", u.nickname),
             ("email", u.email)],
            [("provider", u.federated_provider)]), [], s)

/-! ## Dispatcher -/

/-- `PROVIDERS.get(provider, (None,))`, collapsed with the subsequent
`hasattr` check: a `None` provider or one absent from the registry yields a
config whose family has no `_<authtype>_init`/`_callback` method. -/
def lookupProvider (provider : Option String) : Option ProviderCfg :=
  provider.bind (fun p => PROVIDERS.lookup p)

/-- `_simple_auth(provider)`: the init dispatcher.  A provider without a
registry entry goes to `_provider_not_supported`; a raising flow is caught
and routed to `_auth_error(provider, str(exc))`. -/
def simple_auth (h : HandlerCfg) (env : Env) (q : String → Option String)
    (csrf_secret : List Nat) (now : Nat) (s : Session) (provider : Option String) :
    List Event × Session :=
  match provider with
  | none => ([.provider_not_supported none], s)
  | some p =>
    match PROVIDERS.lookup p with
    | none => ([.provider_not_supported (some p)], s)
    | some (.oauth2 auth_url _) => oauth2_init h p auth_url csrf_secret now s
    | some (.oauth1 req_url auth_url _) =>
      match oauth1_init h env p req_url auth_url s with
      | (.ok _, evs, s') => (evs, s')
      | (.error m, evs, s') => (evs ++ [.auth_error (some p) m], s')
    | some .openid => openid_init h env p q s

/-- `_auth_callback(provider)`: the callback dispatcher.  On a returned
`(user_data, auth_info)` it invokes `_on_signin`; on a raise it invokes
`_auth_error`. -/
def auth_callback (h : HandlerCfg) (env : Env) (q : String → Option String)
    (now : Nat) (s : Session) (provider : Option String) : List Event × Session :=
  match provider with
  | none => ([.provider_not_supported none], s)
  | some p =>
    match PROVIDERS.lookup p with
    | none => ([.provider_not_supported (some p)], s)
    | some cfg =>
      let r : FlowOut CallbackValue :=
        match cfg with
        | .oauth2 _ token_url => oauth2_callback h env p token_url q now s
        | .oauth1 _ _ access_url => oauth1_callback h env p access_url q s
        | .openid => openid_callback env s
      match r with
      | (.ok v, evs, s') => (evs ++ [.signin v.1 v.2 (some p)], s')
      | (.error m, evs, s') => (evs ++ [.auth_error (some p) m], s')

/-! ## Supporting lemmas: base64 roundtrip, decimal digits, rsplit -/

theorem b64Index_b64Char_fin : ∀ n : Fin 64, b64Index (b64Char n.val) = some n.val := by
  decide

theorem b64Index_b64Char {n : Nat} (h : n < 64) : b64Index (b64Char n) = some n :=
  b64Index_b64Char_fin ⟨n, h⟩

theorem b64Char_ne_pad {n : Nat} (h : n < 64) : b64Char n ≠ '=' := by
  intro heq
  have h1 := b64Index_b64Char h
  rw [heq] at h1
  exact Option.noConfusion (by simpa [b64Index, b64Alphabet] using h1)

theorem b64_roundtrip :
    ∀ bs : List Nat, (∀ b ∈ bs, b < 256) → b64DecodeBytes (b64EncodeBytes bs) = some bs := by
  intro bs
  induction bs using b64EncodeBytes.induct with
  | case1 =>
    intro _; rfl
  | case2 a =>
    intro hb
    have ha : a < 256 := hb a (by simp)
    have h1 : a / 4 < 64 := by omega
    have h2 : a % 4 * 16 < 64 := by omega
    simp [b64EncodeBytes, b64DecodeBytes, b64Index_b64Char h1, b64Index_b64Char h2]
    omega
  | case3 a b =>
    intro hb
    have ha : a < 256 := hb a (by simp)
    have hbb : b < 256 := hb b (by simp)
    have h1 : a / 4 < 64 := by omega
    have h2 : a % 4 * 16 + b / 16 < 64 := by omega
    have h3 : b % 16 * 4 < 64 := by omega
    simp [b64EncodeBytes, b64DecodeBytes, b64Index_b64Char h1, b64Index_b64Char h2,
      b64Index_b64Char h3, b64Char_ne_pad h3]
    omega
  | case4 a b c rest ih =>
    intro hb
    have ha : a < 256 := hb a (by simp)
    have hbb : b < 256 := hb b (by simp)
    have hc : c < 256 := hb c (by simp)
    have hrest : ∀ x ∈ rest, x < 256 := fun x hx => hb x (by simp [hx])
    have h1 : a / 4 < 64 := by omega
    have h2 : a % 4 * 16 + b / 16 < 64 := by omega
    have h3 : b % 16 * 4 + c / 64 < 64 := by omega
    have h4 : c % 64 < 64 := by omega
    simp [b64EncodeBytes, b64DecodeBytes, b64Index_b64Char h1, b64Index_b64Char h2,
      b64Index_b64Char h3, b64Index_b64Char h4, b64Char_ne_pad h3, b64Char_ne_pad h4,
      ih hrest]
    omega

theorem decDigits_mem : ∀ n, ∀ d ∈ decDigits n, 48 ≤ d ∧ d ≤ 57 := by
  intro n
  induction n using decDigits.induct with
  | case1 n h =>
    intro d hd
    rw [decDigits, dif_pos h] at hd
    simp at hd
    omega
  | case2 n h ih =>
    intro d hd
    rw [decDigits, dif_neg h] at hd
    rcases List.mem_append.mp hd with h1 | h2
    · exact ih d h1
    · simp at h2
      omega

theorem decDigits_ne_nil (n : Nat) : decDigits n ≠ [] := by
  rw [decDigits]
  split <;> simp

theorem parseDigitsAux_append (acc : Nat) (xs ys : List Nat) :
    parseDigitsAux acc (xs ++ ys) =
      match parseDigitsAux acc xs with
      | some a => parseDigitsAux a ys
      | none => none := by
  induction xs generalizing acc with
  | nil => rfl
  | cons x xs ih =>
    simp only [List.cons_append, parseDigitsAux]
    cases digitVal x with
    | none => rfl
    | some v => exact ih (acc * 10 + v)

theorem parseDigitsAux_decDigits :
    ∀ n acc, parseDigitsAux acc (decDigits n) =
      some (acc * 10 ^ (decDigits n).length + n) := by
  intro n
  induction n using decDigits.induct with
  | case1 n h =>
    intro acc
    rw [decDigits, dif_pos h]
    simp only [parseDigitsAux, digitVal, if_pos (by omega : 48 ≤ 48 + n ∧ 48 + n ≤ 57),
      List.length_singleton, pow_one]
    congr 1
    omega
  | case2 n h ih =>
    intro acc
    rw [decDigits, dif_neg h]
    rw [parseDigitsAux_append, ih acc]
    simp only [parseDigitsAux, digitVal,
      if_pos (by omega : 48 ≤ 48 + n % 10 ∧ 48 + n % 10 ≤ 57),
      List.length_append, List.length_singleton]
    congr 1
    have h48 : 48 + n % 10 - 48 = n % 10 := by omega
    rw [h48, pow_succ]
    have hmul : acc * (10 ^ (decDigits (n / 10)).length * 10) =
        acc * 10 ^ (decDigits (n / 10)).length * 10 := by ring
    rw [hmul]
    generalize acc * 10 ^ (decDigits (n / 10)).length = A
    omega

theorem parseDigits_decDigits (n : Nat) : parseDigits (decDigits n) = some n := by
  rw [parseDigits, if_neg (by simpa using decDigits_ne_nil n)]
  simpa using parseDigitsAux_decDigits n 0

theorem parseLong_decDigits (n : Nat) : parseLong (decDigits n) = some (n : Int) := by
  rcases hd : decDigits n with _ | ⟨b, rest⟩
  · exact absurd hd (decDigits_ne_nil n)
  · have hb : 48 ≤ b ∧ b ≤ 57 := decDigits_mem n b (by rw [hd]; simp)
    rw [parseLong, if_neg (by omega)]
    rw [← hd, parseDigits_decDigits]
    rfl

theorem rsplitLast_not_mem {d : Nat} : ∀ {bs : List Nat}, d ∉ bs → rsplitLast d bs = none := by
  intro bs
  induction bs with
  | nil => intro _; rfl
  | cons b rest ih =>
    intro h
    rw [rsplitLast, ih (fun hm => h (List.mem_cons_of_mem b hm))]
    rw [if_neg (fun he => h (by simp [he]))]

theorem rsplitLast_append {d : Nat} (xs ys : List Nat) (h : d ∉ ys) :
    rsplitLast d (xs ++ d :: ys) = some (xs, ys) := by
  induction xs with
  | nil => simp [rsplitLast, rsplitLast_not_mem h]
  | cons x xs ih => simp [rsplitLast, ih]

theorem rsplit1_append {d : Nat} (xs ys : List Nat) (h : d ∉ ys) :
    rsplit1 d (xs ++ d :: ys) = [xs, ys] := by
  rw [rsplit1, rsplitLast_append xs ys h]

/-! ## Concrete fixtures for witnesses, counterexamples and scenarios -/

/-- Host configuration of the end-to-end scenario: key `k`, secret `s`,
callback URL `https://host/cb`, CSRF disabled. -/
def scenarioHost : HandlerCfg :=
  { consumer_info_for := fun _ => (some "k", some "s", none),
    callback_uri_for := fun _ => some "https://host/cb",
    OAUTH2_CSRF_STATE := false }

/-- Host configuration with everything left at the library defaults:
`_get_consumer_info_for` returns `(None, None, None)` and
`_callback_uri_for` returns `None`. -/
def missingHost : HandlerCfg :=
  { consumer_info_for := fun _ => (none, none, none),
    callback_uri_for := fun _ => none,
    OAUTH2_CSRF_STATE := false }

/-- Collaborator oracles of the scenarios: the token endpoint answers with
the JSON body of the end-to-end scenario, the OAuth1 transport answers with
a 500, the profile fetcher succeeds silently. -/
def scenarioEnv : Env :=
  { urlfetch_response := fun _ _ => "\x7b\"access_token\":\"tok1\"\x7d",
    oauth1_response := fun _ _ => (500, ""),
    user_info := fun _ _ _ _ => (.ok [("id", "u1")], []),
    create_login_url := fun _ _ => "https://login.example/redirect",
    current_user := none }

/-- Fresh session. -/
def emptySession : Session := {}

/-- Callback request of the end-to-end scenario: only `code=abc123`. -/
def qCode : String → Option String :=
  fun k => if k = "code" then some "abc123" else none

/-- Callback request carrying `code=abc123` and an `error` parameter that is
present but has an empty value (query string `...&error=`). -/
def qCodeEmptyError : String → Option String :=
  fun k => if k = "code" then some "abc123" else if k = "error" then some "" else none

/-- Callback request carrying a nonempty `error` value. -/
def qError : String → Option String :=
  fun k => if k = "error" then some "access_denied" else none

/-! ## Claim theorems -/

/-- Claim C2: for every provider name without a registry entry, both
dispatchers invoke `_provider_not_supported` with that name exactly once
(the whole event trace is that single invocation, so no `_auth_error` and
no redirect), and leave the session untouched. -/
theorem c2_unregistered_provider_not_supported
    (h : HandlerCfg) (env : Env) (q : String → Option String) (cs : List Nat)
    (now : Nat) (s : Session) (p : Option String)
    (hp : lookupProvider p = none) :
    simple_auth h env q cs now s p = ([.provider_not_supported p], s) ∧
    auth_callback h env q now s p = ([.provider_not_supported p], s) := by
  cases p with
  | none => exact ⟨rfl, rfl⟩
  | some name =>
    have hl : PROVIDERS.lookup name = none := by simpa [lookupProvider] using hp
    rw [simple_auth, auth_callback, hl]
    exact ⟨rfl, rfl⟩

/-- Witness for C2 at provider name `github`. -/
theorem c2_unregistered_provider_not_supported_witness :
    lookupProvider (some "github") = none ∧
    simple_auth scenarioHost scenarioEnv (fun _ => none) [] 0 emptySession (some "github")
      = ([.provider_not_supported (some "github")], emptySession) ∧
    auth_callback scenarioHost scenarioEnv (fun _ => none) 0 emptySession (some "github")
      = ([.provider_not_supported (some "github")], emptySession) :=
  ⟨by decide,
   c2_unregistered_provider_not_supported scenarioHost scenarioEnv (fun _ => none) [] 0
     emptySession (some "github") (by decide)⟩

/-- Claim C4: `_validate_csrf_token` returns `False` for every pair of raw
strings that differ, whatever they would decode to: the equality check is
first, so decode and timeout are only reached on equal strings. -/
theorem c4_validate_unequal_strings_false (now : Nat) (expected actual : String)
    (h : expected ≠ actual) : validate_csrf_token now expected actual = false := by
  rw [validate_csrf_token, if_pos h]

/-- Witness for C4 on two distinct token strings. -/
theorem c4_validate_unequal_strings_false_witness :
    ("YTox" ≠ "YToy") ∧ validate_csrf_token 7 "YTox" "YToy" = false :=
  ⟨by decide, c4_validate_unequal_strings_false 7 "YTox" "YToy" (by decide)⟩

/-- Claim C10: with the empty string as the expected token (the
`session.pop` default when no CSRF token is stored), no actual value
validates: unequal strings fail at the equality check, and the equal pair
`("", "")` fails closed because decoding the empty token yields no
delimiter-separated timestamp. -/
theorem c10_validate_empty_expected_false (now : Nat) (actual : String) :
    validate_csrf_token now "" actual = false := by
  by_cases h : ("" : String) = actual
  · subst h; rfl
  · rw [validate_csrf_token, if_pos h]

/-- Claim C5: every `_oauth1_callback` invocation leaves the session without
`req_token` (the pop is unconditional, before any check), whatever the prior
session, request or network behaviour; hence a second invocation on the
resulting session necessarily raises the missing-request-token failure. -/
theorem c5_oauth1_callback_consumes_req_token
    (h : HandlerCfg) (env : Env) (p url : String) (q : String → Option String)
    (s : Session) :
    (oauth1_callback h env p url q s).2.2.req_token = none ∧
    (oauth1_callback h env p url q (oauth1_callback h env p url q s).2.2).1
      = .error "Couldn\x27t find request token" := by
  have hsess : ∀ s0 : Session, (oauth1_callback h env p url q s0).2.2.req_token = none := by
    intro s0
    rw [oauth1_callback]
    dsimp only
    repeat' split
    all_goals rfl
  have herr : ∀ s0 : Session, s0.req_token = none →
      (oauth1_callback h env p url q s0).1 = .error "Couldn\x27t find request token" := by
    intro s0 h0
    rw [oauth1_callback]
    simp [h0, truthyDict]
  exact ⟨hsess s, herr _ (hsess s)⟩

/-- Claim C6: an `_oauth1_callback` invocation with no stored request token,
or with the `oauth_verifier` query parameter absent, raises before the
signed access-token request: the result is an error and the event trace is
empty (no network call of any kind). -/
theorem c6_oauth1_callback_missing_inputs_fail_before_network
    (h : HandlerCfg) (env : Env) (p url : String) (q : String → Option String)
    (s : Session)
    (hmiss : s.req_token = none ∨ q "oauth_verifier" = none) :
    (∃ msg, (oauth1_callback h env p url q s).1 = .error msg) ∧
    (oauth1_callback h env p url q s).2.1 = [] := by
  rcases hmiss with hr | hv
  · rw [oauth1_callback]
    simp [hr, truthyDict]
  · rw [oauth1_callback]
    rcases hrt : s.req_token with _ | rt
    · simp [truthyDict]
    · cases rt with
      | nil => simp [truthyDict]
      | cons a l => simp [truthyDict, hv, truthy]

/-- Witness for C6: empty session and empty request. -/
theorem c6_oauth1_callback_missing_inputs_fail_before_network_witness :
    (emptySession.req_token = none ∨
      (fun (_ : String) => (none : Option String)) "oauth_verifier" = none) ∧
    ((∃ msg, (oauth1_callback scenarioHost scenarioEnv "twitter"
        "https://api.twitter.com/oauth/access_token" (fun _ => none) emptySession).1
          = .error msg) ∧
     (oauth1_callback scenarioHost scenarioEnv "twitter"
        "https://api.twitter.com/oauth/access_token" (fun _ => none) emptySession).2.1 = []) :=
  ⟨Or.inl rfl,
   c6_oauth1_callback_missing_inputs_fail_before_network scenarioHost scenarioEnv "twitter"
     "https://api.twitter.com/oauth/access_token" (fun _ => none) emptySession (Or.inl rfl)⟩

/-- Claim C3: a token generated at time `t` (nonempty random secret of
bytes), validated against itself at any later time `tNow`, validates
exactly when `tNow - t ≤ OAUTH2_CSRF_TOKEN_TIMEOUT` (3600 seconds): true
within the window, false beyond it. -/
theorem c3_csrf_token_lifetime
    (secret : List Nat) (t tNow : Nat)
    (hne : secret ≠ []) (hbytes : ∀ b ∈ secret, b < 256) (hle : t ≤ tNow) :
    validate_csrf_token tNow (generate_csrf_token secret none t)
        (generate_csrf_token secret none t)
      = decide (tNow - t ≤ OAUTH2_CSRF_TOKEN_TIMEOUT) := by
  have hbytes' : ∀ b ∈ secret ++ OAUTH2_CSRF_DELIMITER :: decDigits t, b < 256 := by
    intro b hb
    rcases List.mem_append.mp hb with h1 | h2
    · exact hbytes b h1
    · rcases List.mem_cons.mp h2 with h3 | h4
      · rw [h3]; norm_num [OAUTH2_CSRF_DELIMITER]
      · have := decDigits_mem t b h4; omega
  have hnot : OAUTH2_CSRF_DELIMITER ∉ decDigits t := by
    intro hm
    have := decDigits_mem t _ hm
    norm_num [OAUTH2_CSRF_DELIMITER] at this
  have hdata : (generate_csrf_token secret none t).data
      = b64EncodeBytes (secret ++ OAUTH2_CSRF_DELIMITER :: decDigits t) := rfl
  rw [validate_csrf_token, if_neg (by simp)]
  rw [hdata]
  simp only [b64_roundtrip _ hbytes', rsplit1_append secret (decDigits t) hnot,
    parseLong_decDigits, if_neg hne]
  by_cases hc : tNow - t ≤ OAUTH2_CSRF_TOKEN_TIMEOUT
  · have h1 : ¬((tNow : Int) - (t : Int) > (OAUTH2_CSRF_TOKEN_TIMEOUT : Int)) := by
      rw [OAUTH2_CSRF_TOKEN_TIMEOUT] at *
      omega
    simp [h1, hc]
  · have h1 : (tNow : Int) - (t : Int) > (OAUTH2_CSRF_TOKEN_TIMEOUT : Int) := by
      rw [OAUTH2_CSRF_TOKEN_TIMEOUT] at *
      omega
    simp [h1, hc]

/-- Witness for C3: one-byte secret, generated at 10, validated at 20. -/
theorem c3_csrf_token_lifetime_witness :
    ([97] ≠ ([] : List Nat)) ∧ (∀ b ∈ [97], b < 256) ∧ 10 ≤ 20 ∧
    validate_csrf_token 20 (generate_csrf_token [97] none 10)
        (generate_csrf_token [97] none 10)
      = decide (20 - 10 ≤ OAUTH2_CSRF_TOKEN_TIMEOUT) :=
  ⟨by decide, by decide, by decide,
   c3_csrf_token_lifetime [97] 10 20 (by decide) (by decide) (by decide)⟩

/-- Counterexample to claim C7 as stated: in the scenario configuration, a
callback whose query string carries the `error` parameter with an empty
value (`...&error=`) does not fail — `if error:` is a truthiness test — and
the token-exchange POST is still performed. -/
theorem c7_counterexample_empty_error_still_exchanges :
    qCodeEmptyError "error" = some "" ∧
    oauth2_callback scenarioHost scenarioEnv "google"
        "https://accounts.google.com/o/oauth2/token" qCodeEmptyError 0 emptySession
      = (.ok ([("id", "u1")], [("access_token", "tok1")]),
         [.urlfetchPost "https://accounts.google.com/o/oauth2/token"
           "client_secret=s&code=abc123&grant_type=authorization_code&client_id=k&redirect_uri=https%3A%2F%2Fhost%2Fcb"],
         emptySession) :=
  ⟨rfl, by rfl⟩

/-- Claim C7 amended: whenever the `error` query parameter is present with a
nonempty value, `_oauth2_callback` raises that value immediately: no event
is emitted (in particular no token-exchange POST) and the session is
untouched; an `error` parameter that is present but empty is treated as
absent. -/
theorem c7_error_param_aborts_before_exchange
    (h : HandlerCfg) (env : Env) (p url : String) (q : String → Option String)
    (now : Nat) (s : Session) (v : String)
    (he : q "error" = some v) (hv : v ≠ "") :
    oauth2_callback h env p url q now s = (.error v, [], s) := by
  rw [oauth2_callback]
  simp [he, truthy, pyStr, hv]

/-- Witness for the amended C7 at `error=access_denied`. -/
theorem c7_error_param_aborts_before_exchange_witness :
    qError "error" = some "access_denied" ∧ "access_denied" ≠ "" ∧
    oauth2_callback scenarioHost scenarioEnv "google"
        "https://accounts.google.com/o/oauth2/token" qError 0 emptySession
      = (.error "access_denied", [], emptySession) :=
  ⟨rfl, by decide,
   c7_error_param_aborts_before_exchange scenarioHost scenarioEnv "google"
     "https://accounts.google.com/o/oauth2/token" qError 0 emptySession "access_denied"
     rfl (by decide)⟩

/-- Claim C9: `_oauth2_callback` never checks that `code` is present: with
both `code` and `error` absent, whenever CSRF is disabled or its validation
passes (the expected token popped from the session validates against the
`state` parameter), the token-exchange POST is still the first emitted
event, its payload built with the `code` field at its missing-value default
`None`. -/
theorem c9_missing_code_still_posts
    (h : HandlerCfg) (env : Env) (p url : String) (q : String → Option String)
    (now : Nat) (s : Session)
    (hc : q "code" = none) (he : q "error" = none)
    (hcs : h.OAUTH2_CSRF_STATE = false ∨
      validate_csrf_token now (s.oauth2_state.getD "") ((q "state").getD "") = true) :
    (oauth2_callback h env p url q now s).2.1.head? =
      some (.urlfetchPost url (urlencode (oauth2_token_payload none
        (h.consumer_info_for p).1 (h.consumer_info_for p).2.1 (h.callback_uri_for p)))) := by
  rw [oauth2_callback]
  rcases hci : h.consumer_info_for p with ⟨ci, cs, sc⟩
  cases hb : h.OAUTH2_CSRF_STATE with
  | false =>
    simp only [hci, hc, he, hb, truthy, Bool.false_eq_true, if_false, Bool.not_false,
      if_true, Bool.not_true]
    repeat' split
    all_goals simp_all
  | true =>
    have hval : validate_csrf_token now (s.oauth2_state.getD "") ((q "state").getD "")
        = true := by
      rcases hcs with h1 | h2
      · rw [hb] at h1; exact absurd h1 (by simp)
      · exact h2
    simp only [hci, hc, he, hb, hval, truthy, Bool.false_eq_true, if_false, Bool.not_false,
      if_true, Bool.not_true]
    repeat' split
    all_goals simp_all

/-- CSRF token of the C9 witness: `YTow`, the urlsafe base64 encoding of
the byte string `a:0` (secret byte `a`, issued at time 0). -/
def c9Tok : String := "YTow"

/-- Scenario host with CSRF protection enabled. -/
def csrfHost : HandlerCfg := { scenarioHost with OAUTH2_CSRF_STATE := true }

/-- Session holding the C9 witness token under `oauth2_state`. -/
def c9Session : Session := { oauth2_state := some c9Tok }

/-- Callback request of the C9 witness: only the matching `state`
parameter; `code` and `error` absent. -/
def qState : String → Option String :=
  fun k => if k = "state" then some c9Tok else none

/-- Witness for C9, exercising the CSRF-enabled disjunct: protection on,
stored token matching the `state` parameter and within its lifetime,
`code` and `error` absent. -/
theorem c9_missing_code_still_posts_witness :
    qState "code" = none ∧
    qState "error" = none ∧
    (csrfHost.OAUTH2_CSRF_STATE = false ∨
      validate_csrf_token 0 (c9Session.oauth2_state.getD "") ((qState "state").getD "")
        = true) ∧
    (oauth2_callback csrfHost scenarioEnv "google"
        "https://accounts.google.com/o/oauth2/token" qState 0 c9Session).2.1.head? =
      some (.urlfetchPost "https://accounts.google.com/o/oauth2/token"
        (urlencode (oauth2_token_payload none
          (csrfHost.consumer_info_for "google").1
          (csrfHost.consumer_info_for "google").2.1
          (csrfHost.callback_uri_for "google")))) :=
  ⟨rfl, rfl, Or.inr (by decide),
   c9_missing_code_still_posts csrfHost scenarioEnv "google"
     "https://accounts.google.com/o/oauth2/token" qState 0 c9Session
     rfl rfl (Or.inr (by decide))⟩

/-- Claim C1 at its failing input (code bug): the `_valid` check of
`_oauth1_init` chains its six inputs with `or`, so with twitter's registry
entry and key, secret and callback URL all absent the check passes, the
flow proceeds to the signed request-token network call, and the resulting
failure is routed by the dispatcher to `_auth_error` — never to
`_provider_not_supported`; and with the endpoint URLs also absent the flow
raises the `auth_urls` KeyError rather than producing a
ProviderNotSupported outcome, because the registered-parser disjunct makes
`_valid` unconditionally true wherever the parser lookup itself does not
raise first. -/
theorem c1_oauth1_config_gap_reaches_auth_error :
    simple_auth missingHost scenarioEnv (fun _ => none) [] 0 emptySession (some "twitter")
      = ([.oauth1Request "https://api.twitter.com/oauth/request_token" "GET",
          .auth_error (some "twitter") "Could not fetch a valid response from twitter"],
         emptySession) ∧
    oauth1_init missingHost scenarioEnv "twitter" none none emptySession
      = (.error "\x27request\x27", [], emptySession) :=
  ⟨by rfl, by rfl⟩

/-- Counterexample to claim C8 as stated: in the end-to-end scenario the
dict-ordered query strings differ from the claimed ones — the redirect URL
does not contain the substring
`client_id=k&redirect_uri=https%3A%2F%2Fhost%2Fcb&response_type=code`, and
the token-exchange body is not
`grant_type=authorization_code&code=abc123&client_id=k&client_secret=s&redirect_uri=https%3A%2F%2Fhost%2Fcb`. -/
theorem c8_counterexample_parameter_order :
    (oauth2_init scenarioHost "google" "https://accounts.google.com/o/oauth2/auth?{0}"
        [] 0 emptySession).1
      = [.redirect "https://accounts.google.com/o/oauth2/auth?redirect_uri=https%3A%2F%2Fhost%2Fcb&response_type=code&client_id=k"] ∧
    strContains
      "https://accounts.google.com/o/oauth2/auth?redirect_uri=https%3A%2F%2Fhost%2Fcb&response_type=code&client_id=k"
      "client_id=k&redirect_uri=https%3A%2F%2Fhost%2Fcb&response_type=code" = false ∧
    (oauth2_callback scenarioHost scenarioEnv "google"
        "https://accounts.google.com/o/oauth2/token" qCode 0 emptySession).2.1
      = [.urlfetchPost "https://accounts.google.com/o/oauth2/token"
          "client_secret=s&code=abc123&grant_type=authorization_code&client_id=k&redirect_uri=https%3A%2F%2Fhost%2Fcb"] ∧
    ("client_secret=s&code=abc123&grant_type=authorization_code&client_id=k&redirect_uri=https%3A%2F%2Fhost%2Fcb"
      ≠ "grant_type=authorization_code&code=abc123&client_id=k&client_secret=s&redirect_uri=https%3A%2F%2Fhost%2Fcb") :=
  ⟨by rfl, by decide, by rfl, by decide⟩

/-- Claim C8 amended: same scenario, with the query strings in the order
`urlencode` actually emits (the CPython 2.7 dict iteration order).  Init
redirects to the authorization URL carrying exactly the parameters
`redirect_uri=https%3A%2F%2Fhost%2Fcb`, `response_type=code` and
`client_id=k`; the callback with `code=abc123` POSTs the body
`client_secret=s&code=abc123&grant_type=authorization_code&client_id=k&redirect_uri=https%3A%2F%2Fhost%2Fcb`
to the token endpoint; and the JSON response body with `access_token` set
to `tok1` yields exactly that AuthInfo mapping. -/
theorem c8_end_to_end_scenario :
    oauth2_init scenarioHost "google" "https://accounts.google.com/o/oauth2/auth?{0}"
        [] 0 emptySession
      = ([.redirect "https://accounts.google.com/o/oauth2/auth?redirect_uri=https%3A%2F%2Fhost%2Fcb&response_type=code&client_id=k"],
         emptySession) ∧
    strContains
      "https://accounts.google.com/o/oauth2/auth?redirect_uri=https%3A%2F%2Fhost%2Fcb&response_type=code&client_id=k"
      "client_id=k" = true ∧
    strContains
      "https://accounts.google.com/o/oauth2/auth?redirect_uri=https%3A%2F%2Fhost%2Fcb&response_type=code&client_id=k"
      "redirect_uri=https%3A%2F%2Fhost%2Fcb" = true ∧
    strContains
      "https://accounts.google.com/o/oauth2/auth?redirect_uri=https%3A%2F%2Fhost%2Fcb&response_type=code&client_id=k"
      "response_type=code" = true ∧
    oauth2_callback scenarioHost scenarioEnv "google"
        "https://accounts.google.com/o/oauth2/token" qCode 0 emptySession
      = (.ok ([("id", "u1")], [("access_token", "tok1")]),
         [.urlfetchPost "https://accounts.google.com/o/oauth2/token"
           "client_secret=s&code=abc123&grant_type=authorization_code&client_id=k&redirect_uri=https%3A%2F%2Fhost%2Fcb"],
         emptySession) :=
  ⟨by rfl, by decide, by decide, by decide, by rfl⟩

end SimpleAuth
